import Mathlib

/-!
Shallow embedding of the tracing core of a hybrid CPU/GPU ray tracer.

The core of the program is a GLSL fragment shader embedded in `main.cpp`
(the string `fragmentShaderSource`): a per-pixel path integrator with a
linear-congruential PRNG, sphere/plane intersection, material scattering
(Lambertian / Metal / Glass / Emissive) and a depth-bounded bounce loop.

Embedding choices:
* GLSL `float` arithmetic is modelled over `ℚ` (exact rationals); float
  literals such as `0.001`, `0.5`, `0.7` are embedded as the rationals
  they denote in the source text.
* GLSL `sqrt` is modelled by `Rat.sqrt` (exact on perfect squares, which
  is the regime every concrete witness below is placed in).
* GLSL `uint` arithmetic is modelled as `ℕ` with explicit `% 2 ^ 32`.
* The shader's global mutable PRNG seed is threaded explicitly: every
  stateful function takes a seed and returns the updated seed.
* The source's `random_in_unit_sphere` is an unbounded `while (true)`
  rejection loop; it is embedded as a fuel-indexed function returning
  `Option` (`none` = the loop is still running after `fuel` attempts).
-/

namespace RT

/-- GLSL `vec3` with rational components. -/
structure Vec3 where
  x : ℚ
  y : ℚ
  z : ℚ
deriving DecidableEq

/-- GLSL `vec4` with rational components. -/
structure Vec4 where
  x : ℚ
  y : ℚ
  z : ℚ
  w : ℚ
deriving DecidableEq

instance : Add Vec3 := ⟨fun a b => ⟨a.x + b.x, a.y + b.y, a.z + b.z⟩⟩

instance : Sub Vec3 := ⟨fun a b => ⟨a.x - b.x, a.y - b.y, a.z - b.z⟩⟩

instance : Neg Vec3 := ⟨fun a => ⟨-a.x, -a.y, -a.z⟩⟩

/-- Componentwise product, GLSL `vec3 * vec3`. -/
instance : Mul Vec3 := ⟨fun a b => ⟨a.x * b.x, a.y * b.y, a.z * b.z⟩⟩

/-- Scalar multiple, GLSL `float * vec3`. -/
instance : SMul ℚ Vec3 := ⟨fun k v => ⟨k * v.x, k * v.y, k * v.z⟩⟩

/-- GLSL `dot` on `vec3`. -/
def dot (a b : Vec3) : ℚ := a.x * b.x + a.y * b.y + a.z * b.z

/-- GLSL `length` on `vec3` (`sqrt` modelled by `Rat.sqrt`). -/
def vlength (v : Vec3) : ℚ := Rat.sqrt (dot v v)

/-- GLSL `normalize`: `v / length(v)`. -/
def normalize (v : Vec3) : Vec3 := (1 / vlength v) • v

/-- GLSL `mix` on `vec3`: `x * (1 - a) + y * a`. -/
def mix (a b : Vec3) (t : ℚ) : Vec3 := (1 - t) • a + t • b

/-- The `xyz` part of a `vec4` (GLSL `vec3(v)` / `v.xyz`). -/
def Vec4.xyz (v : Vec4) : Vec3 := ⟨v.x, v.y, v.z⟩

/-- GLSL column-major `mat4`: `c0 … c3` are the columns, so `m[3]` is `c3`. -/
structure Mat4 where
  c0 : Vec4
  c1 : Vec4
  c2 : Vec4
  c3 : Vec4
deriving DecidableEq

/-- GLSL `mat4 * vec4` (columns weighted by the vector's components). -/
def Mat4.mulVec (m : Mat4) (v : Vec4) : Vec4 :=
  ⟨m.c0.x * v.x + m.c1.x * v.y + m.c2.x * v.z + m.c3.x * v.w,
   m.c0.y * v.x + m.c1.y * v.y + m.c2.y * v.z + m.c3.y * v.w,
   m.c0.z * v.x + m.c1.z * v.y + m.c2.z * v.z + m.c3.z * v.w,
   m.c0.w * v.x + m.c1.w * v.y + m.c2.w * v.z + m.c3.w * v.w⟩

/-- The identity `mat4` (used only by concrete witnesses). -/
def Mat4.id : Mat4 :=
  ⟨⟨1, 0, 0, 0⟩, ⟨0, 1, 0, 0⟩, ⟨0, 0, 1, 0⟩, ⟨0, 0, 0, 1⟩⟩

/-- Shader constant `MAT_LAMBERTIAN`. -/
def MAT_LAMBERTIAN : ℕ := 0

/-- Shader constant `MAT_METAL`. -/
def MAT_METAL : ℕ := 1

/-- Shader constant `MAT_GLASS`. -/
def MAT_GLASS : ℕ := 2

/-- Shader constant `MAT_EMISSIVE`. -/
def MAT_EMISSIVE : ℕ := 3

/-- Shader `struct MaterialData`.  The shader only ever reads the `rgb`
parts of `baseColor` and `emission`, so those are embedded as `Vec3`;
`properties` holds `(metallic, roughness, ior)` in `x`, `y`, `z`. -/
structure MaterialData where
  baseColor : Vec3
  properties : Vec3
  emission : Vec3
  type : ℕ
deriving DecidableEq

/-- Shader `struct ObjectData`.  `inverseModelMatrix`, `halfSize` and the
padding fields are never read by the shader core and are omitted. -/
structure ObjectData where
  modelMatrix : Mat4
  materialIndex : ℕ
  type : ℕ
  radius : ℚ
deriving DecidableEq

/-- Shader `struct Ray`. -/
structure Ray where
  origin : Vec3
  direction : Vec3
deriving DecidableEq

/-- Shader `struct HitInfo`. -/
structure HitInfo where
  is_hit : Bool
  t : ℚ
  point : Vec3
  normal : Vec3
  materialIndex : ℕ
  front_face : Bool
deriving DecidableEq

/-- GLSL `uint` modulus. -/
def UINT_MOD : ℕ := 2 ^ 32

/-- One linear-congruential update of the shader's global `seed`:
`seed = seed * 1664525u + 1013904223u` in wrapping 32-bit arithmetic. -/
def lcg_step (s : ℕ) : ℕ := (s * 1664525 + 1013904223) % UINT_MOD

/-- Shader `random()`: updates the seed and returns
`float(seed & 0x00FFFFFF) / float(0x01000000)`.
Both the masked seed (< 2^24) and the division by 2^24 are exact in
IEEE single precision, so the `ℚ` value coincides with the float one. -/
def random (s : ℕ) : ℚ × ℕ :=
  let s' := lcg_step s
  (((s' &&& 0x00FFFFFF : ℕ) : ℚ) / ((0x01000000 : ℕ) : ℚ), s')

/-- Shader `random_in_unit_sphere()`: rejection sampling of the unit ball
from three draws mapped to `[-1, 1)`.  The source loop is `while (true)`
with no retry cap; the embedding indexes it by fuel, `none` meaning the
loop has not yet exited after `fuel` attempts. -/
def random_in_unit_sphere : ℕ → ℕ → Option (Vec3 × ℕ)
  | 0, _ => none
  | fuel + 1, s =>
    let d1 := random s
    let d2 := random d1.2
    let d3 := random d2.2
    let p : Vec3 := ⟨d1.1 * 2 - 1, d2.1 * 2 - 1, d3.1 * 2 - 1⟩
    if dot p p < 1 then some (p, d3.2) else random_in_unit_sphere fuel d3.2

/-- Shader `reflect(v, n) = v - 2 * dot(v, n) * n`. -/
def reflect (v n : Vec3) : Vec3 := v - (2 * dot v n) • n

/-- Shader `refract(uv, n, etai_over_etat)`. -/
def refract (uv n : Vec3) (etai_over_etat : ℚ) : Vec3 :=
  let cos_theta := min (dot (-uv) n) 1
  let r_out_perp := etai_over_etat • (uv + cos_theta • n)
  let r_out_parallel2 := (-Rat.sqrt |1 - dot r_out_perp r_out_perp|) • n
  r_out_perp + r_out_parallel2

/-- Shader `set_face_normal(rec, r, outward_normal)`, functionally: returns
the record with `front_face` and `normal` updated. -/
def set_face_normal (rec : HitInfo) (r : Ray) (outward_normal : Vec3) : HitInfo :=
  let ff := decide (dot r.direction outward_normal < 0)
  { rec with
    front_face := ff
    normal := if ff then outward_normal else -outward_normal }

/-- Shader `intersect_sphere(r, hit_rec, object_index)`, functionally:
the `inout hit_rec` parameter becomes an explicit argument and result. -/
def intersect_sphere (r : Ray) (rec : HitInfo) (obj : ObjectData) : HitInfo :=
  let center := obj.modelMatrix.c3.xyz
  let oc := r.origin - center
  let a := dot r.direction r.direction
  let b := dot oc r.direction
  let c := dot oc oc - obj.radius * obj.radius
  let discriminant := b * b - a * c
  if discriminant ≥ 0 then
    let t0 := (-b - Rat.sqrt discriminant) / a
    let t := if t0 < 1 / 1000 then (-b + Rat.sqrt discriminant) / a else t0
    if 1 / 1000 < t ∧ t < rec.t then
      let point := r.origin + t • r.direction
      let outward_normal := normalize (point - center)
      let rec' := set_face_normal { rec with is_hit := true, t := t, point := point } r
        outward_normal
      { rec' with materialIndex := obj.materialIndex }
    else rec
  else rec

/-- Shader `intersect_plane(r, hit_rec, object_index)`, functionally. -/
def intersect_plane (r : Ray) (rec : HitInfo) (obj : ObjectData) : HitInfo :=
  let plane_normal := normalize (obj.modelMatrix.mulVec ⟨0, 1, 0, 0⟩).xyz
  let plane_point := obj.modelMatrix.c3.xyz
  let denom := dot plane_normal r.direction
  if |denom| > 1 / 1000 then
    let t := dot (plane_point - r.origin) plane_normal / denom
    if 1 / 1000 < t ∧ t < rec.t then
      let point := r.origin + t • r.direction
      let rec' := set_face_normal { rec with is_hit := true, t := t, point := point } r
        plane_normal
      { rec' with materialIndex := obj.materialIndex }
    else rec
  else rec

/-- Out-of-range material lookup is undefined behaviour in GLSL; the
embedding uses `List.getD` with this absorbing default.  Every concrete
scene used below has only in-range indices, so the default is never
exercised there. -/
def mdefault : MaterialData := ⟨⟨0, 0, 0⟩, ⟨0, 0, 0⟩, ⟨0, 0, 0⟩, 99⟩

/-- Shader `scatter(r_in, rec, attenuation, scattered)`.  Returns
`some (attenuation, scattered, didScatter, seed)`, or `none` when the
rejection-sampling fuel runs out (a model artifact, see
`random_in_unit_sphere`).  For the Glass material, GLSL `||`
short-circuits, so `random()` is drawn only when total internal
reflection does not already force a reflect.  On the `didScatter = false`
paths the source leaves the `out` parameter `scattered` unassigned where
noted; the embedding returns `r_in` there, and that component is never
read by `trace` on those paths. -/
def scatter (fuel : ℕ) (materials : List MaterialData) (r_in : Ray) (rec : HitInfo)
    (seed : ℕ) : Option (Vec3 × Ray × Bool × ℕ) :=
  let mat := materials.getD rec.materialIndex mdefault
  let attenuation := mat.baseColor
  if mat.type = MAT_LAMBERTIAN then
    match random_in_unit_sphere fuel seed with
    | none => none
    | some (p, s') =>
      let sd0 := rec.normal + p
      let sd := if vlength sd0 < 1 / 1000 then rec.normal else sd0
      some (attenuation, ⟨rec.point, normalize sd⟩, true, s')
  else if mat.type = MAT_METAL then
    match random_in_unit_sphere fuel seed with
    | none => none
    | some (p, s') =>
      let reflected := reflect r_in.direction rec.normal
      let d := normalize (reflected + mat.properties.y • p)
      some (attenuation, ⟨rec.point, d⟩, decide (dot d rec.normal > 0), s')
  else if mat.type = MAT_GLASS then
    let rr := if rec.front_face then 1 / mat.properties.z else mat.properties.z
    let cos_theta := min (dot (-r_in.direction) rec.normal) 1
    let sin_theta := Rat.sqrt (1 - cos_theta * cos_theta)
    let cannot_refract := decide (rr * sin_theta > 1)
    let r0 := ((1 - rr) / (1 + rr)) * ((1 - rr) / (1 + rr))
    let reflectance := r0 + (1 - r0) * (1 - cos_theta) ^ 5
    if cannot_refract then
      some (attenuation, ⟨rec.point, normalize (reflect r_in.direction rec.normal)⟩,
        true, seed)
    else
      let d := random seed
      let dir := if reflectance > d.1 then reflect r_in.direction rec.normal
        else refract r_in.direction rec.normal rr
      some (attenuation, ⟨rec.point, normalize dir⟩, true, d.2)
  else
    some (attenuation, r_in, false, seed)

/-- Shader `int MAX_DEPTH = 8` in `trace`. -/
def MAX_DEPTH : ℕ := 8

/-- Fuel given to the model of the source's uncapped rejection loop.  The
source has no cap at all, so any fuel value is an over-approximation of
"still running"; `2^32` covers a full period of the 32-bit LCG. -/
def RIUS_FUEL : ℕ := 2 ^ 32

/-- The per-iteration `HitInfo` reset in `trace`: the source assigns only
`is_hit = false` and `t = 10000.0` and leaves the other fields
uninitialized; they are zero here and are never read before being set. -/
def initHit : HitInfo := ⟨false, 10000, ⟨0, 0, 0⟩, ⟨0, 0, 0⟩, 0, false⟩

/-- The object scan inside `trace`: `type == 0` ray-sphere, `type == 2`
ray-plane, anything else skipped. -/
def scan_objects (objs : List ObjectData) (r : Ray) (rec : HitInfo) : HitInfo :=
  objs.foldl
    (fun rec obj =>
      if obj.type = 0 then intersect_sphere r rec obj
      else if obj.type = 2 then intersect_plane r rec obj
      else rec)
    rec

/-- The bounce loop of shader `trace(r)`, with the remaining depth as the
recursion measure (the source iterates `depth` from `0` to `MAX_DEPTH`).
Arguments `att` and `final` are the loop-carried `attenuation` and
`final_color`; `none` signals rejection-sampling fuel exhaustion only. -/
def traceAux (objs : List ObjectData) (mats : List MaterialData) :
    ℕ → Ray → Vec3 → Vec3 → ℕ → Option Vec3
  | 0, _, _, final, _ => some final
  | depth + 1, r, att, final, seed =>
    let hit_rec := scan_objects objs r initHit
    if hit_rec.is_hit then
      let mat := mats.getD hit_rec.materialIndex mdefault
      let emitted := mat.emission
      match scatter RIUS_FUEL mats r hit_rec seed with
      | none => none
      | some (current_attenuation, scattered, did, s') =>
        if did then
          let att' := att * current_attenuation
          traceAux objs mats depth scattered att' (final + emitted * att') s'
        else some (final + emitted * att)
    else
      let t := 1 / 2 * (r.direction.y + 1)
      some (final + mix ⟨1, 1, 1⟩ ⟨1 / 2, 7 / 10, 1⟩ t * att)

/-- Shader `trace(r)`, with the PRNG seed made explicit. -/
def trace (objs : List ObjectData) (mats : List MaterialData) (r : Ray) (seed : ℕ) :
    Option Vec3 :=
  traceAux objs mats MAX_DEPTH r ⟨1, 1, 1⟩ ⟨0, 0, 0⟩ seed

/-- Modelled from the spec: the path-integrator iteration order stated in
§4.4 — on a hit, `emission * cumulativeAttenuation` is added to the
accumulated result BEFORE `cumulativeAttenuation *= scatterAttenuation`.
This definition exists only as the refinement comparator for the claim
about emission ordering; it is `traceAux` with the success branch's two
statements swapped. -/
def traceSpecOrderAux (objs : List ObjectData) (mats : List MaterialData) :
    ℕ → Ray → Vec3 → Vec3 → ℕ → Option Vec3
  | 0, _, _, final, _ => some final
  | depth + 1, r, att, final, seed =>
    let hit_rec := scan_objects objs r initHit
    if hit_rec.is_hit then
      let mat := mats.getD hit_rec.materialIndex mdefault
      let emitted := mat.emission
      match scatter RIUS_FUEL mats r hit_rec seed with
      | none => none
      | some (current_attenuation, scattered, did, s') =>
        if did then
          traceSpecOrderAux objs mats depth scattered (att * current_attenuation)
            (final + emitted * att) s'
        else some (final + emitted * att)
    else
      let t := 1 / 2 * (r.direction.y + 1)
      some (final + mix ⟨1, 1, 1⟩ ⟨1 / 2, 7 / 10, 1⟩ t * att)

/-- Modelled from the spec: `trace` with the §4.4 emission ordering. -/
def traceSpecOrder (objs : List ObjectData) (mats : List MaterialData) (r : Ray)
    (seed : ℕ) : Option Vec3 :=
  traceSpecOrderAux objs mats MAX_DEPTH r ⟨1, 1, 1⟩ ⟨0, 0, 0⟩ seed

/-- Iteration counter for the bounce loop: mirrors the control flow of
`traceAux` exactly and counts how many loop iterations execute. -/
def traceStepsAux (objs : List ObjectData) (mats : List MaterialData) :
    ℕ → Ray → ℕ → ℕ
  | 0, _, _ => 0
  | depth + 1, r, seed =>
    let hit_rec := scan_objects objs r initHit
    if hit_rec.is_hit then
      match scatter RIUS_FUEL mats r hit_rec seed with
      | none => 1
      | some (_, scattered, did, s') =>
        if did then 1 + traceStepsAux objs mats depth scattered s'
        else 1
    else 1

/-- Number of bounce-loop iterations the trace of one primary ray runs. -/
def trace_steps (objs : List ObjectData) (mats : List MaterialData) (r : Ray)
    (seed : ℕ) : ℕ :=
  traceStepsAux objs mats MAX_DEPTH r seed

/-- The shader's global seed initialization:
`seed = uint(x) * 1973u + uint(y) * 9277u + uint(u_time * 1000.0) * 26699u`
in wrapping 32-bit arithmetic; `x`, `y` are the pixel coordinates and the
time scalar is `uint(time * 1000)` (truncation of a non-negative float,
modelled by the floor). -/
def init_seed (x y : ℕ) (time : ℚ) : ℕ :=
  (x * 1973 + y * 9277 + (⌊time * 1000⌋).toNat * 26699) % UINT_MOD

/-- The camera ray built in the shader's `main()`.  GLSL builtins with no
exact rational counterpart are taken as inputs: `tan_half_fov` stands for
`tan(radians(60.0) / 2.0)` and `inv_view` for `inverse(u_camera_view)`
(both are fixed per frame, computed from the camera parameters only). -/
def camera_ray (u v aspect tan_half_fov : ℚ) (cam_pos : Vec3) (inv_view : Mat4) : Ray :=
  let ray_dir := normalize
    ⟨(u * 2 - 1) * aspect * tan_half_fov, (v * 2 - 1) * tan_half_fov, -1⟩
  ⟨cam_pos, (inv_view.mulVec ⟨ray_dir.x, ray_dir.y, ray_dir.z, 0⟩).xyz⟩

/-- The per-pixel computation of the fragment shader: seed derivation from
`(x, y, time)`, camera ray from the camera parameters, then `trace`.
(The final `pow(color, 1/2.2)` display gamma is outside this function.) -/
def pixel_color (x y : ℕ) (time u v aspect tan_half_fov : ℚ) (cam_pos : Vec3)
    (inv_view : Mat4) (objs : List ObjectData) (mats : List MaterialData) :
    Option Vec3 :=
  trace objs mats (camera_ray u v aspect tan_half_fov cam_pos inv_view)
    (init_seed x y time)

/-- The seed after `n` LCG updates. -/
def lcg_iter (s : ℕ) : ℕ → ℕ
  | 0 => s
  | n + 1 => lcg_step (lcg_iter s n)

/-- The `n`-th value (0-based) of the PRNG stream started at seed `s`. -/
def rng_stream (s : ℕ) (n : ℕ) : ℚ := (random (lcg_iter s n)).1

/-! ### Concrete scenes and inputs used by the witnesses below -/

/-- A plane object with identity transform, for concrete witnesses. -/
def pobj : ObjectData := ⟨Mat4.id, 0, 2, 0⟩

/-- A unit sphere at the origin, for concrete witnesses. -/
def sObj : ObjectData := ⟨Mat4.id, 0, 0, 1⟩

/-- Glass material with `ior = 2`, for the C6 witness. -/
def gmat : MaterialData := ⟨⟨1, 1, 1⟩, ⟨0, 0, 2⟩, ⟨0, 0, 0⟩, 2⟩

/-- A back-facing hit record, for the C6 witness. -/
def grec : HitInfo := ⟨true, 1, ⟨0, 0, 0⟩, ⟨0, 1, 0⟩, 0, false⟩

/-- A sphere of radius `1/2` at the origin, for the C4 witness. -/
def c4obj : ObjectData := ⟨Mat4.id, 0, 0, 1 / 2⟩

/-- Glass material with emission, for the emission-ordering scene:
`baseColor = (1/2,1/2,1/2)`, `ior = 3`, `emission = (1,1,1)`. -/
def glassMat : MaterialData := ⟨⟨1 / 2, 1 / 2, 1 / 2⟩, ⟨0, 0, 3⟩, ⟨1, 1, 1⟩, 2⟩

/-- A glass sphere of radius `1/2` at the origin. -/
def sphereObj : ObjectData := ⟨Mat4.id, 0, 0, 1 / 2⟩

/-- Primary ray aimed head-on at `sphereObj` from `(0,0,4)`. -/
def cexRay : Ray := ⟨⟨0, 0, 4⟩, ⟨0, 0, -1⟩⟩

/-! ### Componentwise lemmas for the vector operations -/

@[simp]
theorem Vec3.mk_add (a b c d e f : ℚ) :
    (⟨a, b, c⟩ + ⟨d, e, f⟩ : Vec3) = ⟨a + d, b + e, c + f⟩ := rfl

@[simp]
theorem Vec3.mk_sub (a b c d e f : ℚ) :
    (⟨a, b, c⟩ - ⟨d, e, f⟩ : Vec3) = ⟨a - d, b - e, c - f⟩ := rfl

@[simp]
theorem Vec3.mk_neg (a b c : ℚ) : (-(⟨a, b, c⟩ : Vec3)) = ⟨-a, -b, -c⟩ := rfl

@[simp]
theorem Vec3.mk_mul (a b c d e f : ℚ) :
    (⟨a, b, c⟩ * ⟨d, e, f⟩ : Vec3) = ⟨a * d, b * e, c * f⟩ := rfl

@[simp]
theorem Vec3.mk_smul (k a b c : ℚ) : (k • (⟨a, b, c⟩ : Vec3)) = ⟨k * a, k * b, k * c⟩ := rfl

@[simp]
theorem dot_mk (a b c d e f : ℚ) :
    dot ⟨a, b, c⟩ ⟨d, e, f⟩ = a * d + b * e + c * f := rfl

theorem add_def (a b : Vec3) : a + b = ⟨a.x + b.x, a.y + b.y, a.z + b.z⟩ := rfl

theorem sub_def (a b : Vec3) : a - b = ⟨a.x - b.x, a.y - b.y, a.z - b.z⟩ := rfl

theorem neg_def (a : Vec3) : -a = ⟨-a.x, -a.y, -a.z⟩ := rfl

theorem smul_def (k : ℚ) (a : Vec3) : k • a = ⟨k * a.x, k * a.y, k * a.z⟩ := rfl

theorem dot_def (a b : Vec3) : dot a b = a.x * b.x + a.y * b.y + a.z * b.z := rfl

/-- Evaluation helper: the square root of an exhibited perfect square. -/
theorem rat_sqrt_of_sq (q a : ℚ) (ha : 0 ≤ a) (h : q = a * a) : Rat.sqrt q = a := by
  rw [h, Rat.sqrt_eq, abs_of_nonneg ha]

/-! ### C8: the PRNG step -/

/-- C8. One PRNG draw updates the seed to `seed * 1664525 + 1013904223`
in wrapping 32-bit arithmetic and returns `(newSeed & 0x00FFFFFF) / 0x01000000`,
which always lies in `[0, 1)`. -/
theorem prng_step_updates_and_bounds (s : ℕ) :
    (random s).2 = (s * 1664525 + 1013904223) % 2 ^ 32 ∧
    (random s).1 = ((((s * 1664525 + 1013904223) % 2 ^ 32) % 2 ^ 24 : ℕ) : ℚ) / ((2 ^ 24 : ℕ) : ℚ) ∧
    0 ≤ (random s).1 ∧ (random s).1 < 1 := by
  have hmask : (random s).1 = (((s * 1664525 + 1013904223) % 2 ^ 32) % 2 ^ 24 : ℕ) / ((2 ^ 24 : ℕ) : ℚ) := by
    show ((((s * 1664525 + 1013904223) % UINT_MOD) &&& 0x00FFFFFF : ℕ) : ℚ) / ((0x01000000 : ℕ) : ℚ) = _
    rw [show (0x00FFFFFF : ℕ) = 2 ^ 24 - 1 from rfl, Nat.and_pow_two_sub_one_eq_mod]
    norm_num [UINT_MOD]
  refine ⟨rfl, hmask, ?_, ?_⟩
  · rw [hmask]; positivity
  · rw [hmask]
    rw [div_lt_one (by positivity)]
    have := Nat.mod_lt ((s * 1664525 + 1013904223) % 2 ^ 32) (show 0 < 2 ^ 24 by norm_num)
    exact_mod_cast this

/-! ### C5: the rejection sampler -/

/-- C5. Fuel-zero behaviour and the success invariant of the rejection loop:
the loop has no result until an attempt succeeds, and any point it
returns has squared length `< 1` (there is no fallback exit returning an
out-of-ball sample).  The `fuel = 0` conjunct witnesses that the model of
the source loop yields nothing at all when no attempt has succeeded yet. -/
theorem rius_exit_only_on_success :
    (∀ s, random_in_unit_sphere 0 s = none) ∧
    (∀ fuel s p s', random_in_unit_sphere fuel s = some (p, s') → dot p p < 1) := by
  refine ⟨fun s => rfl, ?_⟩
  intro fuel
  induction fuel with
  | zero => intro s p s' h; simp [random_in_unit_sphere] at h
  | succ n ih =>
    intro s p s' h
    rw [random_in_unit_sphere] at h
    split at h
    · rename_i hcond
      rw [Option.some.injEq, Prod.mk.injEq] at h
      rw [← h.1]
      exact hcond
    · exact ih _ _ _ h

/-! ### C3: the bounce-loop bound -/

theorem traceStepsAux_le_fuel (objs : List ObjectData) (mats : List MaterialData) :
    ∀ d r seed, traceStepsAux objs mats d r seed ≤ d := by
  intro d
  induction d with
  | zero => intro r seed; simp [traceStepsAux]
  | succ n ih =>
    intro r seed
    rw [traceStepsAux]
    split
    · split
      · omega
      · split
        · simpa [Nat.add_comm] using Nat.succ_le_succ (ih _ _)
        · omega
    · omega

/-- C3. `MAX_DEPTH = 8` and the path integrator performs at most
`MAX_DEPTH` bounce iterations for every scene, primary ray and seed. -/
theorem trace_at_most_max_depth_iterations :
    MAX_DEPTH = 8 ∧
    ∀ (objs : List ObjectData) (mats : List MaterialData) (r : Ray) (seed : ℕ),
      trace_steps objs mats r seed ≤ MAX_DEPTH :=
  ⟨rfl, fun objs mats r seed => traceStepsAux_le_fuel objs mats MAX_DEPTH r seed⟩

/-! ### C2: per-pixel determinism -/

/-- C2. The per-pixel computation is a pure function of
`(x, y, time, scene, camera)`: equal pixel coordinates, time, scene and
camera parameters give identical output colors, and equal `(x, y, time)`
give identical PRNG streams.  The shader's only hidden state, the global
`seed`, is initialized from `(x, y, time)` alone and is threaded
explicitly in this embedding, so determinism is structural. -/
theorem per_pixel_trace_deterministic
    (x₁ y₁ : ℕ) (t₁ : ℚ) (x₂ y₂ : ℕ) (t₂ : ℚ) (u v aspect tan_half_fov : ℚ)
    (cam_pos : Vec3) (inv_view : Mat4) (objs₁ objs₂ : List ObjectData)
    (mats₁ mats₂ : List MaterialData)
    (hx : x₁ = x₂) (hy : y₁ = y₂) (ht : t₁ = t₂) (ho : objs₁ = objs₂) (hm : mats₁ = mats₂) :
    pixel_color x₁ y₁ t₁ u v aspect tan_half_fov cam_pos inv_view objs₁ mats₁ =
      pixel_color x₂ y₂ t₂ u v aspect tan_half_fov cam_pos inv_view objs₂ mats₂ ∧
    ∀ n, rng_stream (init_seed x₁ y₁ t₁) n = rng_stream (init_seed x₂ y₂ t₂) n := by
  subst hx hy ht ho hm
  exact ⟨rfl, fun n => rfl⟩

theorem per_pixel_trace_deterministic_witness :
    pixel_color 10 20 (3 / 2) (1 / 2) (1 / 2) (4 / 3) (577 / 1000) ⟨0, 0, 4⟩ Mat4.id [] [] =
      pixel_color 10 20 (3 / 2) (1 / 2) (1 / 2) (4 / 3) (577 / 1000) ⟨0, 0, 4⟩ Mat4.id [] [] ∧
    ∀ n, rng_stream (init_seed 10 20 (3 / 2)) n = rng_stream (init_seed 10 20 (3 / 2)) n :=
  per_pixel_trace_deterministic 10 20 (3 / 2) 10 20 (3 / 2) (1 / 2) (1 / 2) (4 / 3)
    (577 / 1000) ⟨0, 0, 4⟩ Mat4.id [] [] [] [] rfl rfl rfl rfl rfl

/-! ### C7: the plane near-parallel guard -/

/-- C7. When `|dot(plane normal, ray direction)| ≤ 0.001` the plane test
returns the record unchanged: the branch containing the division by
`denom` is not entered, so no intersection is produced. -/
theorem plane_near_parallel_no_intersection
    (r : Ray) (rec : HitInfo) (obj : ObjectData)
    (h : |dot (normalize (obj.modelMatrix.mulVec ⟨0, 1, 0, 0⟩).xyz) r.direction| ≤ 1 / 1000) :
    intersect_plane r rec obj = rec := by
  simp only [intersect_plane]
  rw [if_neg (not_lt.mpr h)]

/-- Evaluation helper: the transformed plane normal of an identity model
matrix. -/
theorem plane_normal_id : normalize (Mat4.id.mulVec ⟨0, 1, 0, 0⟩).xyz = ⟨0, 1, 0⟩ := by
  have h1 : Rat.sqrt (dot ⟨0, 1, 0⟩ ⟨0, 1, 0⟩) = 1 :=
    rat_sqrt_of_sq _ 1 (by norm_num) (by norm_num)
  simp only [normalize, vlength, Mat4.mulVec, Mat4.id, Vec4.xyz]
  norm_num [h1]



theorem plane_near_parallel_no_intersection_witness :
    intersect_plane ⟨⟨0, 3, 0⟩, ⟨1, 0, 0⟩⟩ initHit pobj = initHit :=
  plane_near_parallel_no_intersection _ _ _ (by rw [show pobj.modelMatrix = Mat4.id from rfl, plane_normal_id]; norm_num)

/-! ### C9: the front-face normal convention -/

theorem dot_neg_right (a b : Vec3) : dot a (-b) = -dot a b := by
  simp only [dot_def, neg_def]
  ring

theorem set_face_normal_spec (rec : HitInfo) (r : Ray) (n : Vec3) :
    ((set_face_normal rec r n).front_face = true ↔ dot r.direction n < 0) ∧
    (set_face_normal rec r n).normal =
      (if (set_face_normal rec r n).front_face = true then n else -n) ∧
    dot r.direction (set_face_normal rec r n).normal ≤ 0 := by
  simp only [set_face_normal]
  refine ⟨by simp, by simp, ?_⟩
  simp only [decide_eq_true_eq]
  split
  · rename_i h
    simpa using le_of_lt h
  · rename_i h
    simp only [dot_neg_right]
    simpa using neg_nonpos.mpr (not_lt.mp h)

theorem intersect_sphere_cases (r : Ray) (rec : HitInfo) (obj : ObjectData) :
    intersect_sphere r rec obj = rec ∨
    ∃ t : ℚ, intersect_sphere r rec obj =
      { set_face_normal { rec with is_hit := true, t := t, point := r.origin + t • r.direction }
          r (normalize (r.origin + t • r.direction - obj.modelMatrix.c3.xyz)) with
        materialIndex := obj.materialIndex } := by
  simp only [intersect_sphere]
  repeat' split
  all_goals first
    | (left; rfl)
    | (right; exact ⟨_, rfl⟩)

theorem intersect_plane_cases (r : Ray) (rec : HitInfo) (obj : ObjectData) :
    intersect_plane r rec obj = rec ∨
    ∃ t : ℚ, intersect_plane r rec obj =
      { set_face_normal { rec with is_hit := true, t := t, point := r.origin + t • r.direction }
          r (normalize (obj.modelMatrix.mulVec ⟨0, 1, 0, 0⟩).xyz) with
        materialIndex := obj.materialIndex } := by
  simp only [intersect_plane]
  repeat' split
  all_goals first
    | (left; rfl)
    | (right; exact ⟨_, rfl⟩)

theorem hit_normal_oriented_against_ray (r : Ray) (rec : HitInfo) (obj : ObjectData) :
    (intersect_sphere r rec obj = rec ∨
      (((intersect_sphere r rec obj).front_face = true ↔
          dot r.direction
            (normalize ((intersect_sphere r rec obj).point - obj.modelMatrix.c3.xyz)) < 0) ∧
        (intersect_sphere r rec obj).normal =
          (if (intersect_sphere r rec obj).front_face = true
            then normalize ((intersect_sphere r rec obj).point - obj.modelMatrix.c3.xyz)
            else -normalize ((intersect_sphere r rec obj).point - obj.modelMatrix.c3.xyz)) ∧
        dot r.direction (intersect_sphere r rec obj).normal ≤ 0)) ∧
    (intersect_plane r rec obj = rec ∨
      (((intersect_plane r rec obj).front_face = true ↔
          dot r.direction (normalize (obj.modelMatrix.mulVec ⟨0, 1, 0, 0⟩).xyz) < 0) ∧
        (intersect_plane r rec obj).normal =
          (if (intersect_plane r rec obj).front_face = true
            then normalize (obj.modelMatrix.mulVec ⟨0, 1, 0, 0⟩).xyz
            else -normalize (obj.modelMatrix.mulVec ⟨0, 1, 0, 0⟩).xyz) ∧
        dot r.direction (intersect_plane r rec obj).normal ≤ 0)) := by
  constructor
  · rcases intersect_sphere_cases r rec obj with h | ⟨t, h⟩
    · exact Or.inl h
    · right
      rw [h]
      have hh := set_face_normal_spec
        { rec with is_hit := true, t := t, point := r.origin + t • r.direction } r
        (normalize (r.origin + t • r.direction - obj.modelMatrix.c3.xyz))
      exact ⟨hh.1, hh.2.1, hh.2.2⟩
  · rcases intersect_plane_cases r rec obj with h | ⟨t, h⟩
    · exact Or.inl h
    · right
      rw [h]
      have hh := set_face_normal_spec
        { rec with is_hit := true, t := t, point := r.origin + t • r.direction } r
        (normalize (obj.modelMatrix.mulVec ⟨0, 1, 0, 0⟩).xyz)
      exact ⟨hh.1, hh.2.1, hh.2.2⟩


/-! ### C10: rejected tests leave the record untouched -/

/-- C10. When an intersection test rejects (sphere: negative discriminant
or the selected root outside `(0.001, current closest t)`; plane:
near-parallel direction or `t` outside the same window), the hit record
is returned exactly as it was. -/
theorem reject_leaves_record_unchanged (r : Ray) (rec : HitInfo) (obj : ObjectData) :
    (dot (r.origin - obj.modelMatrix.c3.xyz) r.direction *
          dot (r.origin - obj.modelMatrix.c3.xyz) r.direction -
        dot r.direction r.direction *
          (dot (r.origin - obj.modelMatrix.c3.xyz) (r.origin - obj.modelMatrix.c3.xyz) -
            obj.radius * obj.radius) < 0 ∨
      ¬(1 / 1000 <
          (if (-dot (r.origin - obj.modelMatrix.c3.xyz) r.direction -
                Rat.sqrt
                  (dot (r.origin - obj.modelMatrix.c3.xyz) r.direction *
                      dot (r.origin - obj.modelMatrix.c3.xyz) r.direction -
                    dot r.direction r.direction *
                      (dot (r.origin - obj.modelMatrix.c3.xyz)
                          (r.origin - obj.modelMatrix.c3.xyz) -
                        obj.radius * obj.radius))) /
                dot r.direction r.direction < 1 / 1000 then
            (-dot (r.origin - obj.modelMatrix.c3.xyz) r.direction +
                Rat.sqrt
                  (dot (r.origin - obj.modelMatrix.c3.xyz) r.direction *
                      dot (r.origin - obj.modelMatrix.c3.xyz) r.direction -
                    dot r.direction r.direction *
                      (dot (r.origin - obj.modelMatrix.c3.xyz)
                          (r.origin - obj.modelMatrix.c3.xyz) -
                        obj.radius * obj.radius))) /
              dot r.direction r.direction
          else
            (-dot (r.origin - obj.modelMatrix.c3.xyz) r.direction -
                Rat.sqrt
                  (dot (r.origin - obj.modelMatrix.c3.xyz) r.direction *
                      dot (r.origin - obj.modelMatrix.c3.xyz) r.direction -
                    dot r.direction r.direction *
                      (dot (r.origin - obj.modelMatrix.c3.xyz)
                          (r.origin - obj.modelMatrix.c3.xyz) -
                        obj.radius * obj.radius))) /
              dot r.direction r.direction) ∧
          (if (-dot (r.origin - obj.modelMatrix.c3.xyz) r.direction -
                Rat.sqrt
                  (dot (r.origin - obj.modelMatrix.c3.xyz) r.direction *
                      dot (r.origin - obj.modelMatrix.c3.xyz) r.direction -
                    dot r.direction r.direction *
                      (dot (r.origin - obj.modelMatrix.c3.xyz)
                          (r.origin - obj.modelMatrix.c3.xyz) -
                        obj.radius * obj.radius))) /
                dot r.direction r.direction < 1 / 1000 then
            (-dot (r.origin - obj.modelMatrix.c3.xyz) r.direction +
                Rat.sqrt
                  (dot (r.origin - obj.modelMatrix.c3.xyz) r.direction *
                      dot (r.origin - obj.modelMatrix.c3.xyz) r.direction -
                    dot r.direction r.direction *
                      (dot (r.origin - obj.modelMatrix.c3.xyz)
                          (r.origin - obj.modelMatrix.c3.xyz) -
                        obj.radius * obj.radius))) /
              dot r.direction r.direction
          else
            (-dot (r.origin - obj.modelMatrix.c3.xyz) r.direction -
                Rat.sqrt
                  (dot (r.origin - obj.modelMatrix.c3.xyz) r.direction *
                      dot (r.origin - obj.modelMatrix.c3.xyz) r.direction -
                    dot r.direction r.direction *
                      (dot (r.origin - obj.modelMatrix.c3.xyz)
                          (r.origin - obj.modelMatrix.c3.xyz) -
                        obj.radius * obj.radius))) /
              dot r.direction r.direction) < rec.t) →
      intersect_sphere r rec obj = rec) ∧
    (¬(|dot (normalize (obj.modelMatrix.mulVec ⟨0, 1, 0, 0⟩).xyz) r.direction| > 1 / 1000) ∨
      ¬(1 / 1000 <
          dot (obj.modelMatrix.c3.xyz - r.origin)
              (normalize (obj.modelMatrix.mulVec ⟨0, 1, 0, 0⟩).xyz) /
            dot (normalize (obj.modelMatrix.mulVec ⟨0, 1, 0, 0⟩).xyz) r.direction ∧
          dot (obj.modelMatrix.c3.xyz - r.origin)
              (normalize (obj.modelMatrix.mulVec ⟨0, 1, 0, 0⟩).xyz) /
            dot (normalize (obj.modelMatrix.mulVec ⟨0, 1, 0, 0⟩).xyz) r.direction < rec.t) →
      intersect_plane r rec obj = rec) := by
  constructor
  · intro h
    simp only [intersect_sphere]
    rcases h with h | h
    · exact if_neg (not_le.mpr h)
    · split
      all_goals rfl
  · intro h
    simp only [intersect_plane]
    rcases h with h | h
    · exact if_neg h
    · split
      all_goals rfl




theorem reject_leaves_record_unchanged_witness :
    intersect_sphere ⟨⟨0, 0, 4⟩, ⟨0, 0, 1⟩⟩ initHit sObj = initHit ∧
    intersect_plane ⟨⟨0, 5, 0⟩, ⟨0, 1, 0⟩⟩ initHit pobj = initHit := by
  have h1 : Rat.sqrt (1 : ℚ) = 1 := rat_sqrt_of_sq 1 1 (by norm_num) (by norm_num)
  constructor
  · refine (reject_leaves_record_unchanged ⟨⟨0, 0, 4⟩, ⟨0, 0, 1⟩⟩ initHit sObj).1 (Or.inr ?_)
    intro hc
    norm_num [sObj, Mat4.id, Vec4.xyz, initHit, h1] at hc
  · refine (reject_leaves_record_unchanged ⟨⟨0, 5, 0⟩, ⟨0, 1, 0⟩⟩ initHit pobj).2 (Or.inr ?_)
    intro hc
    rw [show pobj.modelMatrix = Mat4.id from rfl, plane_normal_id] at hc
    norm_num [pobj, Mat4.id, Vec4.xyz, initHit] at hc


/-! ### C6: glass total internal reflection -/

/-- C6. For a Glass material, whenever `refractionRatio * sinTheta > 1`
(with ratio `1/ior` when front-facing, `ior` otherwise), the scattered
direction is the (normalized) reflection of the incoming direction about
the stored normal — never a refraction — `didScatter` is `true`, and (by
GLSL short-circuit evaluation of `||`) the PRNG seed is not advanced. -/
theorem glass_total_internal_reflection_reflects
    (fuel : ℕ) (mats : List MaterialData) (r_in : Ray) (rec : HitInfo) (seed : ℕ)
    (hglass : (mats.getD rec.materialIndex mdefault).type = MAT_GLASS)
    (htir : (if rec.front_face then 1 / (mats.getD rec.materialIndex mdefault).properties.z
          else (mats.getD rec.materialIndex mdefault).properties.z) *
        Rat.sqrt (1 - min (dot (-r_in.direction) rec.normal) 1 *
          min (dot (-r_in.direction) rec.normal) 1) > 1) :
    scatter fuel mats r_in rec seed =
      some ((mats.getD rec.materialIndex mdefault).baseColor,
        ⟨rec.point, normalize (reflect r_in.direction rec.normal)⟩, true, seed) := by
  simp only [scatter, hglass]
  rw [if_neg (by norm_num [MAT_GLASS, MAT_LAMBERTIAN] : ¬(MAT_GLASS = MAT_LAMBERTIAN)),
    if_neg (by norm_num [MAT_GLASS, MAT_METAL] : ¬(MAT_GLASS = MAT_METAL)),
    if_pos trivial, decide_eq_true htir]
  simp





theorem glass_total_internal_reflection_reflects_witness :
    scatter 0 [gmat] ⟨⟨0, 0, 0⟩, ⟨4 / 5, -3 / 5, 0⟩⟩ grec 7 =
      some (([gmat].getD grec.materialIndex mdefault).baseColor,
        ⟨grec.point,
          normalize (reflect (⟨⟨0, 0, 0⟩, ⟨4 / 5, -3 / 5, 0⟩⟩ : Ray).direction grec.normal)⟩,
        true, 7) :=
  glass_total_internal_reflection_reflects 0 [gmat] ⟨⟨0, 0, 0⟩, ⟨4 / 5, -3 / 5, 0⟩⟩ grec 7
    rfl
    (by
      have h45 : Rat.sqrt (16 / 25 : ℚ) = 4 / 5 :=
        rat_sqrt_of_sq _ (4 / 5) (by norm_num) (by norm_num)
      have hmin : min (3 / 5 : ℚ) 1 = 3 / 5 := min_eq_left (by norm_num)
      have hdot : dot (-(⟨4 / 5, -3 / 5, 0⟩ : Vec3)) ⟨0, 1, 0⟩ = 3 / 5 := by norm_num
      norm_num [grec, gmat, List.getD, hdot, hmin,
        (by norm_num : (1 : ℚ) - 3 / 5 * (3 / 5) = 16 / 25), h45])


/-! ### C4: sphere root selection and the head-on hit -/

/-- Helper for the head-on scenario: a unit ray aimed at the sphere
center from distance `d > radius` (with `d - radius` inside the
acceptance window) hits with `t = d - radius` and a stored normal
parallel to `point - center` (`point - center = radius • normal`). -/
theorem sphere_head_on_scenario
    (o c : Vec3) (d rad : ℚ) (rec : HitInfo) (obj : ObjectData)
    (hc : obj.modelMatrix.c3.xyz = c) (hrad : obj.radius = rad)
    (hd : rad < d) (hr : 0 < rad) (heps : 1 / 1000 < d - rad) (hcap : d - rad < rec.t)
    (hoc : dot (o - c) (o - c) = d * d) :
    (intersect_sphere ⟨o, (1 / d) • (c - o)⟩ rec obj).is_hit = true ∧
    (intersect_sphere ⟨o, (1 / d) • (c - o)⟩ rec obj).t = d - rad ∧
    (intersect_sphere ⟨o, (1 / d) • (c - o)⟩ rec obj).point - c =
      rad • (intersect_sphere ⟨o, (1 / d) • (c - o)⟩ rec obj).normal := by
  have hdpos : 0 < d := lt_trans hr hd
  have hd0 : d ≠ 0 := ne_of_gt hdpos
  have hoc' : (o.x - c.x) * (o.x - c.x) + (o.y - c.y) * (o.y - c.y) +
      (o.z - c.z) * (o.z - c.z) = d * d := by
    simpa [dot_def, sub_def] using hoc
  have hrad0 : rad ≠ 0 := ne_of_gt hr
  have ha : dot ((1 / d) • (c - o)) ((1 / d) • (c - o)) = 1 := by
    simp only [dot_def, smul_def, sub_def]
    field_simp
    linear_combination hoc'
  have hb : dot (o - c) ((1 / d) • (c - o)) = -d := by
    simp only [dot_def, smul_def, sub_def]
    field_simp
    linear_combination -hoc'
  simp only [intersect_sphere, hc, hrad]
  rw [hb, ha, hoc]
  have hdisc : -d * -d - 1 * (d * d - rad * rad) = rad * rad := by ring
  rw [hdisc]
  have hsq : Rat.sqrt (rad * rad) = rad := rat_sqrt_of_sq _ rad (le_of_lt hr) rfl
  rw [hsq]
  have htminus : (- -d - rad) / 1 = d - rad := by ring
  have htplus : (- -d + rad) / 1 = d + rad := by ring
  rw [htminus, htplus]
  rw [if_pos (by positivity : (0 : ℚ) ≤ rad * rad)]
  rw [if_neg (not_lt.mpr (le_of_lt heps))]
  rw [if_pos ⟨heps, hcap⟩]
  simp only [set_face_normal]
  refine ⟨trivial, trivial, ?_⟩
  have hpc : o + (d - rad) • ((1 / d) • (c - o)) - c = (rad / d) • (o - c) := by
    simp only [smul_def, sub_def, add_def, Vec3.mk.injEq]
    refine ⟨?_, ?_, ?_⟩ <;> (field_simp; try ring)
  rw [hpc]
  have hdd : dot ((rad / d) • (o - c)) ((rad / d) • (o - c)) = rad * rad := by
    simp only [dot_def, smul_def, sub_def]
    field_simp
    linear_combination (rad * rad) * hoc'
  have hnn : normalize ((rad / d) • (o - c)) = (1 / d) • (o - c) := by
    unfold normalize vlength
    rw [hdd, hsq]
    simp only [smul_def, sub_def, Vec3.mk.injEq]
    refine ⟨?_, ?_, ?_⟩ <;> (field_simp; try ring)
  rw [hnn]
  have hdir : dot ((1 / d) • (c - o)) ((1 / d) • (o - c)) = -1 := by
    simp only [dot_def, smul_def, sub_def]
    field_simp
    linear_combination -hoc'
  rw [hdir, decide_eq_true (by norm_num : (-1 : ℚ) < 0)]
  simp only [if_pos (rfl : (true : Bool) = true)]
  simp only [smul_def, sub_def, Vec3.mk.injEq]
  refine ⟨?_, ?_, ?_⟩ <;> (field_simp; try ring)

/-- C4. The sphere test follows the root-selection rule — reject on a
negative discriminant, take the smaller root first, fall back to the
larger root when the smaller is below `0.001`, accept only when
`0.001 < t < current closest t` (first conjunct: a definitional
characterization in exactly that shape) — and consequently a unit-direction
ray aimed at a sphere center from distance `d > radius` (with
`d - radius` above the epsilon and below the record's current closest
`t`) yields `hit = true`, `t = d - radius`, and a stored normal parallel
to `point - center`. -/
theorem sphere_root_selection_and_head_on_hit :
    (∀ (r : Ray) (rec : HitInfo) (obj : ObjectData),
      intersect_sphere r rec obj =
        (let center := obj.modelMatrix.c3.xyz
         let oc := r.origin - center
         let a := dot r.direction r.direction
         let b := dot oc r.direction
         let c := dot oc oc - obj.radius * obj.radius
         let discriminant := b * b - a * c
         let smaller := (-b - Rat.sqrt discriminant) / a
         let larger := (-b + Rat.sqrt discriminant) / a
         let t := if smaller < 1 / 1000 then larger else smaller
         if discriminant ≥ 0 then
           if 1 / 1000 < t ∧ t < rec.t then
             { set_face_normal { rec with is_hit := true, t := t, point := r.origin + t • r.direction }
                 r (normalize (r.origin + t • r.direction - center)) with
               materialIndex := obj.materialIndex }
           else rec
         else rec)) ∧
    (∀ (o c : Vec3) (d rad : ℚ) (rec : HitInfo) (obj : ObjectData),
      obj.modelMatrix.c3.xyz = c → obj.radius = rad →
      rad < d → 0 < rad → 1 / 1000 < d - rad → d - rad < rec.t →
      dot (o - c) (o - c) = d * d →
      (intersect_sphere ⟨o, (1 / d) • (c - o)⟩ rec obj).is_hit = true ∧
      (intersect_sphere ⟨o, (1 / d) • (c - o)⟩ rec obj).t = d - rad ∧
      (intersect_sphere ⟨o, (1 / d) • (c - o)⟩ rec obj).point - c =
        rad • (intersect_sphere ⟨o, (1 / d) • (c - o)⟩ rec obj).normal) :=
  ⟨fun r rec obj => rfl,
   fun o c d rad rec obj hc hrad hd hr heps hcap hoc =>
     sphere_head_on_scenario o c d rad rec obj hc hrad hd hr heps hcap hoc⟩



theorem sphere_root_selection_and_head_on_hit_witness :
    (intersect_sphere ⟨⟨0, 0, 4⟩, (1 / 4 : ℚ) • ((⟨0, 0, 0⟩ : Vec3) - ⟨0, 0, 4⟩)⟩ initHit c4obj).is_hit
        = true ∧
    (intersect_sphere ⟨⟨0, 0, 4⟩, (1 / 4 : ℚ) • ((⟨0, 0, 0⟩ : Vec3) - ⟨0, 0, 4⟩)⟩ initHit c4obj).t
        = 4 - 1 / 2 ∧
    (intersect_sphere ⟨⟨0, 0, 4⟩, (1 / 4 : ℚ) • ((⟨0, 0, 0⟩ : Vec3) - ⟨0, 0, 4⟩)⟩ initHit c4obj).point
          - ⟨0, 0, 0⟩ =
      (1 / 2 : ℚ) •
        (intersect_sphere ⟨⟨0, 0, 4⟩, (1 / 4 : ℚ) • ((⟨0, 0, 0⟩ : Vec3) - ⟨0, 0, 4⟩)⟩ initHit
            c4obj).normal :=
  sphere_root_selection_and_head_on_hit.2 ⟨0, 0, 4⟩ ⟨0, 0, 0⟩ 4 (1 / 2) initHit c4obj rfl rfl
    (by norm_num) (by norm_num) (by norm_num) (by norm_num [initHit]) (by norm_num)


/-! ### C1: emission accumulation order -/







/-- One unfolding of the source bounce loop on a hit: emission is added
AFTER `attenuation *= current_attenuation` when the scatter succeeds. -/
theorem traceAux_step {objs : List ObjectData} {mats : List MaterialData} {r : Ray}
    (depth : ℕ) {att final : Vec3} {seed : ℕ} {rec : HitInfo} {catt : Vec3} {scat : Ray}
    {did : Bool} {s' : ℕ}
    (hrec : scan_objects objs r initHit = rec) (hhit : rec.is_hit = true)
    (hscat : scatter RIUS_FUEL mats r rec seed = some (catt, scat, did, s')) :
    traceAux objs mats (depth + 1) r att final seed =
      (if did then
        traceAux objs mats depth scat (att * catt)
          (final + (mats.getD rec.materialIndex mdefault).emission * (att * catt)) s'
      else some (final + (mats.getD rec.materialIndex mdefault).emission * att)) := by
  subst hrec
  rw [traceAux, hhit]
  simp only [if_pos (rfl : (true : Bool) = true), hscat]
  rw [if_pos trivial]

/-- One unfolding of the source bounce loop on a miss: the background
gradient scaled by the running attenuation is added and the loop stops. -/
theorem traceAux_step_miss {objs : List ObjectData} {mats : List MaterialData} {r : Ray}
    (depth : ℕ) {att final : Vec3} {seed : ℕ} {rec : HitInfo}
    (hrec : scan_objects objs r initHit = rec) (hmiss : rec.is_hit = false) :
    traceAux objs mats (depth + 1) r att final seed =
      some (final + mix ⟨1, 1, 1⟩ ⟨1 / 2, 7 / 10, 1⟩ (1 / 2 * (r.direction.y + 1)) * att) := by
  subst hrec
  rw [traceAux, hmiss]
  simp

/-- One unfolding of the spec-ordered comparator on a hit. -/
theorem traceSpecOrderAux_step {objs : List ObjectData} {mats : List MaterialData} {r : Ray}
    (depth : ℕ) {att final : Vec3} {seed : ℕ} {rec : HitInfo} {catt : Vec3} {scat : Ray}
    {did : Bool} {s' : ℕ}
    (hrec : scan_objects objs r initHit = rec) (hhit : rec.is_hit = true)
    (hscat : scatter RIUS_FUEL mats r rec seed = some (catt, scat, did, s')) :
    traceSpecOrderAux objs mats (depth + 1) r att final seed =
      (if did then
        traceSpecOrderAux objs mats depth scat (att * catt)
          (final + (mats.getD rec.materialIndex mdefault).emission * att) s'
      else some (final + (mats.getD rec.materialIndex mdefault).emission * att)) := by
  subst hrec
  rw [traceSpecOrderAux, hhit]
  simp only [if_pos (rfl : (true : Bool) = true), hscat]
  rw [if_pos trivial]

/-- One unfolding of the spec-ordered comparator on a miss. -/
theorem traceSpecOrderAux_step_miss {objs : List ObjectData} {mats : List MaterialData}
    {r : Ray} (depth : ℕ) {att final : Vec3} {seed : ℕ} {rec : HitInfo}
    (hrec : scan_objects objs r initHit = rec) (hmiss : rec.is_hit = false) :
    traceSpecOrderAux objs mats (depth + 1) r att final seed =
      some (final + mix ⟨1, 1, 1⟩ ⟨1 / 2, 7 / 10, 1⟩ (1 / 2 * (r.direction.y + 1)) * att) := by
  subst hrec
  rw [traceSpecOrderAux, hmiss]
  simp

/-- The head-on ray hits the glass sphere at `t = 7/2`, front face. -/
theorem scan_cex_hit : scan_objects [sphereObj] cexRay initHit =
    ⟨true, 7 / 2, ⟨0, 0, 1 / 2⟩, ⟨0, 0, 1⟩, 0, true⟩ := by
  have hsq14 : Rat.sqrt (1 / 4 : ℚ) = 1 / 2 := rat_sqrt_of_sq _ (1 / 2) (by norm_num) (by norm_num)
  have hsq1 : Rat.sqrt (1 : ℚ) = 1 := rat_sqrt_of_sq _ 1 (by norm_num) (by norm_num)
  simp only [scan_objects, List.foldl_cons, List.foldl_nil, sphereObj, cexRay, initHit,
    intersect_sphere, set_face_normal, normalize, vlength, Mat4.id, Vec4.xyz]
  norm_num [hsq14, hsq1, HitInfo.mk.injEq, Vec3.mk.injEq]

/-- The LCG draw from seed 6. -/
theorem random_six : random 6 = (481197 / 16777216, 1023891373) := by
  simp only [random, lcg_step, UINT_MOD]
  norm_num
  rw [show (16777215 : ℕ) = 2 ^ 24 - 1 from by norm_num, Nat.and_pow_two_sub_one_eq_mod]
  norm_num

/-- The glass scatter at the head-on hit: the Fresnel draw from seed 6
falls below the reflectance `1/4`, so the ray reflects to `(0,0,1)`. -/
theorem scatter_cex : scatter RIUS_FUEL [glassMat] cexRay
    ⟨true, 7 / 2, ⟨0, 0, 1 / 2⟩, ⟨0, 0, 1⟩, 0, true⟩ 6 =
    some (⟨1 / 2, 1 / 2, 1 / 2⟩, ⟨⟨0, 0, 1 / 2⟩, ⟨0, 0, 1⟩⟩, true, 1023891373) := by
  have hsq0 : Rat.sqrt (0 : ℚ) = 0 := rat_sqrt_of_sq _ 0 (by norm_num) (by norm_num)
  have hsq1 : Rat.sqrt (1 : ℚ) = 1 := rat_sqrt_of_sq _ 1 (by norm_num) (by norm_num)
  simp only [scatter, List.getD, glassMat, cexRay, mdefault, MAT_LAMBERTIAN, MAT_METAL,
    MAT_GLASS, reflect, normalize, vlength]
  norm_num [random_six, hsq0, hsq1, min_self, Vec3.mk.injEq]

/-- The reflected ray leaves the sphere and misses everything. -/
theorem scan_cex_miss : scan_objects [sphereObj] ⟨⟨0, 0, 1 / 2⟩, ⟨0, 0, 1⟩⟩ initHit = initHit := by
  have hsq14 : Rat.sqrt (1 / 4 : ℚ) = 1 / 2 := rat_sqrt_of_sq _ (1 / 2) (by norm_num) (by norm_num)
  simp only [scan_objects, List.foldl_cons, List.foldl_nil, sphereObj, initHit,
    intersect_sphere, Mat4.id, Vec4.xyz]
  norm_num [hsq14]

/-- Full evaluation of the source `trace` on the emissive-glass scene. -/
theorem trace_cex_value : trace [sphereObj] [glassMat] cexRay 6 = some ⟨7 / 8, 37 / 40, 1⟩ := by
  rw [trace, MAX_DEPTH, show (8 : ℕ) = 7 + 1 from rfl,
    traceAux_step 7 scan_cex_hit rfl scatter_cex, if_pos (rfl : (true : Bool) = true),
    show (7 : ℕ) = 6 + 1 from rfl, traceAux_step_miss 6 scan_cex_miss rfl]
  norm_num [mix, glassMat, List.getD, Vec3.mk.injEq]

/-- Full evaluation of the spec-ordered comparator on the same scene. -/
theorem trace_spec_cex_value :
    traceSpecOrder [sphereObj] [glassMat] cexRay 6 = some ⟨11 / 8, 57 / 40, 3 / 2⟩ := by
  rw [traceSpecOrder, MAX_DEPTH, show (8 : ℕ) = 7 + 1 from rfl,
    traceSpecOrderAux_step 7 scan_cex_hit rfl scatter_cex, if_pos (rfl : (true : Bool) = true),
    show (7 : ℕ) = 6 + 1 from rfl, traceSpecOrderAux_step_miss 6 scan_cex_miss rfl]
  norm_num [mix, glassMat, List.getD, Vec3.mk.injEq]

/-- C1 counterexample: on a scene with one emissive glass sphere
(`baseColor = 1/2`, `emission = 1`), the source trace and the spec's
stated ordering (emission added before the attenuation update) disagree:
the code yields `(7/8, 37/40, 1)`, the spec ordering `(11/8, 57/40, 3/2)`. -/
theorem trace_emission_order_counterexample :
    trace [sphereObj] [glassMat] cexRay 6 ≠ traceSpecOrder [sphereObj] [glassMat] cexRay 6 := by
  rw [trace_cex_value, trace_spec_cex_value]
  simp only [ne_eq, Option.some.injEq, Vec3.mk.injEq, not_and]
  intro h
  norm_num at h

/-- C1 (amended). On every bounce iteration that hits a surface, the
material's emission is added to the accumulated result whether or not the
scatter succeeds — but when it succeeds, the multiplication
`cumulativeAttenuation *= scatterAttenuation` happens BEFORE the emission
is added, so the emission is scaled by the attenuation that already
includes the current bounce; only when the scatter declines is the
emission scaled by the attenuation from the previous bounces alone. -/
theorem trace_emission_uses_updated_attenuation
    (objs : List ObjectData) (mats : List MaterialData) (depth : ℕ) (r : Ray)
    (att final : Vec3) (seed : ℕ) (catt : Vec3) (scat : Ray) (did : Bool) (s' : ℕ)
    (hhit : (scan_objects objs r initHit).is_hit = true)
    (hscat : scatter RIUS_FUEL mats r (scan_objects objs r initHit) seed =
      some (catt, scat, did, s')) :
    traceAux objs mats (depth + 1) r att final seed =
      (if did then
        traceAux objs mats depth scat (att * catt)
          (final +
            (mats.getD (scan_objects objs r initHit).materialIndex mdefault).emission *
              (att * catt)) s'
      else
        some (final +
          (mats.getD (scan_objects objs r initHit).materialIndex mdefault).emission * att)) :=
  traceAux_step depth rfl hhit hscat

theorem trace_emission_uses_updated_attenuation_witness :
    traceAux [sphereObj] [glassMat] (7 + 1) cexRay ⟨1, 1, 1⟩ ⟨0, 0, 0⟩ 6 =
      (if (true : Bool) then
        traceAux [sphereObj] [glassMat] 7 ⟨⟨0, 0, 1 / 2⟩, ⟨0, 0, 1⟩⟩
          (⟨1, 1, 1⟩ * ⟨1 / 2, 1 / 2, 1 / 2⟩)
          (⟨0, 0, 0⟩ +
            ([glassMat].getD (scan_objects [sphereObj] cexRay initHit).materialIndex
                mdefault).emission *
              (⟨1, 1, 1⟩ * ⟨1 / 2, 1 / 2, 1 / 2⟩)) 1023891373
      else
        some (⟨0, 0, 0⟩ +
          ([glassMat].getD (scan_objects [sphereObj] cexRay initHit).materialIndex
              mdefault).emission * ⟨1, 1, 1⟩)) :=
  trace_emission_uses_updated_attenuation [sphereObj] [glassMat] 7 cexRay ⟨1, 1, 1⟩
    ⟨0, 0, 0⟩ 6 ⟨1 / 2, 1 / 2, 1 / 2⟩ ⟨⟨0, 0, 1 / 2⟩, ⟨0, 0, 1⟩⟩ true 1023891373
    (by rw [scan_cex_hit]) (by rw [scan_cex_hit]; exact scatter_cex)

/-- The three LCG draws from seed 0, for the C5 witness. -/
theorem random_zero_draws :
    random 0 = (7271263 / 16777216, 1013904223) ∧
    random 1013904223 = (5253426 / 16777216, 1196435762) ∧
    random 1196435762 = (13432553 / 16777216, 3519870697) := by
  refine ⟨?_, ?_, ?_⟩ <;>
    (simp only [random, lcg_step, UINT_MOD]
     norm_num
     rw [show (16777215 : ℕ) = 2 ^ 24 - 1 from by norm_num, Nat.and_pow_two_sub_one_eq_mod]
     norm_num)

theorem rius_exit_only_on_success_witness :
    dot ⟨-1117345 / 8388608, -1567591 / 4194304, 5043945 / 8388608⟩
        ⟨-1117345 / 8388608, -1567591 / 4194304, 5043945 / 8388608⟩ < 1 :=
  rius_exit_only_on_success.2 1 0
    ⟨-1117345 / 8388608, -1567591 / 4194304, 5043945 / 8388608⟩ 3519870697
    (by
      rw [show (1 : ℕ) = 0 + 1 from rfl, random_in_unit_sphere]
      norm_num [random_zero_draws.1, random_zero_draws.2.1, random_zero_draws.2.2,
        Vec3.mk.injEq])

end RT
